import Mathlib

/-!
Shallow embedding of the session-admission and relaying core of
`src/server.ts` (simple-teledildonics-app).

The server is a single-threaded (Node.js event loop) websocket relay with
three endpoints: `/forwarder` (Sharer), `/status` (Status observer) and `/`
(Controller).  Its shared mutable state consists of three global booleans
(`forwarder_connected`, `status_connected`, `remote_connected`), a global
`status_emitter : StatusEmitter extends EventEmitter` hub, and per-connection
`password_sent` flags.  We model the server as a deterministic step function
over externally chosen events (a transport connecting to an endpoint, a
message arriving on a transport, a transport close or error event firing).
Each step returns the new state together with the list of observable actions
the handlers performed (frames sent, `close()` / `terminate()` calls on
transports, `status_emitter.emit` calls, messages handed to the embedded
Buttplug engine).  The engine itself (`ButtplugServer` message processing)
is external to the core and is represented only by the `toEngine` outputs;
its replies are not modelled.
-/

namespace Teledildonics

/-- The three session roles: `/forwarder`, `/status`, `/` endpoints. -/
inductive Role
  | Sharer
  | Status
  | Controller
deriving DecidableEq, Repr

/-- The three event kinds carried by the global `status_emitter` hub
(`local_disconnect`, `remote_connect`, `remote_disconnect`). -/
inductive EvKind
  | local_disconnect
  | remote_connect
  | remote_disconnect
deriving DecidableEq, Repr

/-- A protocol message inside a parsed batch.  The core inspects only whether
`m.Type === RequestServerInfo` (server.ts line 461); everything else is
opaque. -/
inductive PMsg
  | requestServerInfo
  | other
deriving DecidableEq, Repr

/-- An inbound websocket frame.  `text` is the raw string (compared against
the password on the first message); `msgs` is its parse as a Buttplug batch
(`FromJSON(message)`), used only once the session is authenticated. -/
structure Frame where
  text : String
  msgs : List PMsg
deriving DecidableEq, Repr

/-- A listener registered on the global `status_emitter`.  Each carries the
transport id of the session whose handler closure it is:
* `local_disconnect owner` — registered in `InitServer` (line 439); calls
  `wsClient.close()` on the Controller transport `owner`;
* `remote_connect owner` / `remote_disconnect owner` — registered in
  `StatusHandler` after password success (lines 344/353); send a status frame
  to transport `owner` when `status_connected` is set. -/
inductive HubListener
  | local_disconnect (owner : Nat)
  | remote_connect (owner : Nat)
  | remote_disconnect (owner : Nat)
deriving DecidableEq, Repr

/-- Observable actions performed by the handlers. -/
inductive Out
  | send (sid : Nat) (s : String)
  | closeCall (sid : Nat)
  | terminateCall (sid : Nat)
  | publish (k : EvKind)
  | toEngine (m : PMsg)
deriving DecidableEq, Repr

/-- Per-connection handler state.  `password_sent` is the local flag of the
same name in each handler; `active` records whether websocket events still
reach the handlers (it is cleared by `removeAllListeners()` and when the
`close` event has fired, after which `ws` emits nothing further). -/
structure Session where
  role : Role
  password_sent : Bool
  active : Bool
deriving DecidableEq, Repr

/-- The configured secrets (`process.env.LOCAL_PASSWORD` /
`process.env.REMOTE_PASSWORD`).  `run_app` only executes when both are
non-empty strings, so inside the machine they are plain strings. -/
structure Config where
  LOCAL_PASSWORD : String
  REMOTE_PASSWORD : String
deriving DecidableEq, Repr

/-- Global server state: the three connection flags, the per-connection
sessions (keyed by transport id), the `status_emitter` listener list (in
registration order), and a fresh-id counter for transports. -/
structure St where
  forwarder_connected : Bool
  status_connected : Bool
  remote_connected : Bool
  sessions : List (Nat × Session)
  hub : List HubListener
  nextSid : Nat
deriving DecidableEq, Repr

/-- Externally chosen events driving the machine. -/
inductive Ev
  | connect (r : Role)
  | msg (sid : Nat) (f : Frame)
  | closeEvt (sid : Nat)
  | errorEvt (sid : Nat)
deriving DecidableEq, Repr

/-- The status frame sent on `remote_connect` (line 347). -/
def connect_frame : String := "\x7b\"type\":\"connect\"\x7d"

/-- The status frame sent on `remote_disconnect` (line 356). -/
def disconnect_frame : String := "\x7b\"type\":\"disconnect\"\x7d"

/-- The initial state: no one connected, no listeners registered. -/
def init : St :=
  { forwarder_connected := false,
    status_connected := false,
    remote_connected := false,
    sessions := [],
    hub := [],
    nextSid := 0 }

/-- Update the (first) session with id `sid`. -/
def updSession (sid : Nat) (f : Session → Session) :
    List (Nat × Session) → List (Nat × Session)
  | [] => []
  | (i, s) :: rest =>
    if i = sid then (i, f s) :: rest else (i, s) :: updSession sid f rest

/-- `status_emitter.emit k`: run every registered listener of kind `k` in
registration order against the current state, collecting the actions they
perform.  The `remote_connect` / `remote_disconnect` closures guard on the
global `status_connected` flag (lines 345/354); their `client.send` is
wrapped in try/catch, so a failed send never propagates.  The
`local_disconnect` closures unconditionally call `wsClient.close()`
(line 440).  Listeners themselves never mutate the global flags. -/
def listenerAction (s : St) (k : EvKind) (l : HubListener) : Option Out :=
  match k, l with
  | .local_disconnect, .local_disconnect owner => some (.closeCall owner)
  | .remote_connect, .remote_connect owner =>
    if s.status_connected then some (.send owner connect_frame) else none
  | .remote_disconnect, .remote_disconnect owner =>
    if s.status_connected then some (.send owner disconnect_frame) else none
  | _, _ => none

/-- `status_emitter.emit k` proper: the publish marker followed by the
listeners' actions in registration order. -/
def emitOuts (s : St) (k : EvKind) : List Out :=
  Out.publish k :: s.hub.filterMap (listenerAction s k)

/-- The authenticated Controller relay loop body (lines 460-471): for each
message of the batch, fire `remote_connect` if it is a `RequestServerInfo`,
then hand it to the embedded Buttplug server.  The engine's reply
(`wsClient.send("[" + outgoing.toJSON() + "]")`) is external and not
modelled.  `emit` does not change the state, so the same `s` is read
throughout the loop. -/
def relayOuts (s : St) : List PMsg → List Out
  | [] => []
  | m :: rest =>
    (if m = .requestServerInfo then emitOuts s .remote_connect else [])
      ++ (.toEngine m :: relayOuts s rest)

/-- A transport connects to the endpoint for role `r`.

* `/forwarder` (lines 164-197): rejected with `client.close()` iff
  `forwarder_connected`; otherwise the connector's handlers are installed
  with `password_sent = false`.  Note `forwarder_connected` is NOT set here.
* `/status` (lines 372-384): rejected iff `!forwarder_connected` or
  `status_connected`; otherwise a `StatusHandler` is installed.
  `status_connected` is NOT set here.
* `/` (lines 388-405): rejected iff `!forwarder_connected` or
  `remote_connected`; otherwise `InitServer` runs, which installs the
  handlers, registers a `local_disconnect` hub listener (line 439) and sets
  `remote_connected = true` (line 481) — all before any message arrives.

A rejected transport gets no handlers at all, so no later event on it is
processed (the ws handler returned early). -/
def connectStep (s : St) (r : Role) : St × List Out :=
  let sid := s.nextSid
  match r with
  | .Sharer =>
    if s.forwarder_connected then
      ({ s with nextSid := sid + 1 }, [.closeCall sid])
    else
      ({ s with
           nextSid := sid + 1,
           sessions := s.sessions ++ [(sid, ⟨.Sharer, false, true⟩)] }, [])
  | .Status =>
    if !s.forwarder_connected then
      ({ s with nextSid := sid + 1 }, [.closeCall sid])
    else if s.status_connected then
      ({ s with nextSid := sid + 1 }, [.closeCall sid])
    else
      ({ s with
           nextSid := sid + 1,
           sessions := s.sessions ++ [(sid, ⟨.Status, false, true⟩)] }, [])
  | .Controller =>
    if !s.forwarder_connected then
      ({ s with nextSid := sid + 1 }, [.closeCall sid])
    else if s.remote_connected then
      ({ s with nextSid := sid + 1 }, [.closeCall sid])
    else
      ({ s with
           nextSid := sid + 1,
           sessions := s.sessions ++ [(sid, ⟨.Controller, false, true⟩)],
           hub := s.hub ++ [.local_disconnect sid],
           remote_connected := true }, [])

/-- A `message` event fires on transport `sid` carrying frame `f`.

* Sharer (lines 258-295): before `password_sent`, compare the raw text with
  `LOCAL_PASSWORD`; on match send `"ok"`, set `password_sent`, then set
  `forwarder_connected = true`; on mismatch `close()` and
  `removeAllListeners()`.  After authentication, each parsed message is
  emitted to the forwarded-device manager (engine side).
* Status (lines 326-366): same password flow against `LOCAL_PASSWORD`; on
  match send `"ok"`, register the `remote_connect` / `remote_disconnect`
  hub listeners, then set `status_connected = true`.  Messages after
  authentication fall through the `if` and are ignored.
* Controller (lines 442-472): before `password_sent`, compare with
  `REMOTE_PASSWORD`; on match send `"ok"` (no flag is touched — the slot was
  already taken at admission); on mismatch only `wsClient.close()` is called:
  the listeners stay attached and `remote_connected` stays as it was.  After
  authentication, run the relay loop. -/
def msgStep (cfg : Config) (s : St) (sid : Nat) (f : Frame) : St × List Out :=
  match s.sessions.lookup sid with
  | none => (s, [])
  | some sess =>
    if !sess.active then (s, [])
    else
      match sess.role with
      | .Sharer =>
        if !sess.password_sent then
          if f.text = cfg.LOCAL_PASSWORD then
            ({ s with
                 sessions :=
                   updSession sid (fun x => { x with password_sent := true })
                     s.sessions
                 forwarder_connected := true }, [.send sid "ok"])
          else
            ({ s with
                 sessions :=
                   updSession sid (fun x => { x with active := false })
                     s.sessions }, [.closeCall sid])
        else
          (s, f.msgs.map .toEngine)
      | .Status =>
        if !sess.password_sent then
          if f.text = cfg.LOCAL_PASSWORD then
            ({ s with
                 sessions :=
                   updSession sid (fun x => { x with password_sent := true })
                     s.sessions
                 hub := s.hub ++ [.remote_connect sid, .remote_disconnect sid],
                 status_connected := true }, [.send sid "ok"])
          else
            ({ s with
                 sessions :=
                   updSession sid (fun x => { x with active := false })
                     s.sessions }, [.closeCall sid])
        else
          (s, [])
      | .Controller =>
        if !sess.password_sent then
          if f.text = cfg.REMOTE_PASSWORD then
            ({ s with
                 sessions :=
                   updSession sid (fun x => { x with password_sent := true })
                     s.sessions }, [.send sid "ok"])
          else
            (s, [.closeCall sid])
        else
          (s, relayOuts s f.msgs)

/-- A `close` event fires on transport `sid` (peer closed, or a previously
requested `close()`/`terminate()` completed).  After `close` the socket emits
nothing further, so the session becomes inactive.

* Sharer (lines 248-254): `forwarder_connected = false`, then
  `status_emitter.emitLocalDisconnect()`, then `removeAllListeners()`.
* Status (lines 320-324): `status_connected = false`, `removeAllListeners()`.
* Controller (lines 434-438): `status_emitter.emitRemoteDisconnect()`, then
  `remote_connected = false`.  The hub listeners it registered stay. -/
def closeStep (s : St) (sid : Nat) : St × List Out :=
  match s.sessions.lookup sid with
  | none => (s, [])
  | some sess =>
    if !sess.active then (s, [])
    else
      match sess.role with
      | .Sharer =>
        let s1 := { s with forwarder_connected := false }
        ({ s1 with
             sessions :=
               updSession sid (fun x => { x with active := false })
                 s1.sessions },
         emitOuts s1 .local_disconnect)
      | .Status =>
        ({ s with
             status_connected := false,
             sessions :=
               updSession sid (fun x => { x with active := false })
                 s.sessions }, [])
      | .Controller =>
        ({ s with
             remote_connected := false,
             sessions :=
               updSession sid (fun x => { x with active := false })
                 s.sessions },
         emitOuts s .remote_disconnect)

/-- An `error` event fires on transport `sid`.

* Sharer (lines 235-242): `forwarder_connected = false`,
  `emitLocalDisconnect()`, `terminate()`, `removeAllListeners()`.
* Status (lines 312-317): `status_connected = false`, `terminate()`,
  `removeAllListeners()`.
* Controller (lines 430-433): only `wsClient.terminate()`; the flags and
  listeners are untouched (the subsequent `close` event does the cleanup). -/
def errorStep (s : St) (sid : Nat) : St × List Out :=
  match s.sessions.lookup sid with
  | none => (s, [])
  | some sess =>
    if !sess.active then (s, [])
    else
      match sess.role with
      | .Sharer =>
        let s1 := { s with forwarder_connected := false }
        ({ s1 with
             sessions :=
               updSession sid (fun x => { x with active := false })
                 s1.sessions },
         emitOuts s1 .local_disconnect ++ [.terminateCall sid])
      | .Status =>
        ({ s with
             status_connected := false,
             sessions :=
               updSession sid (fun x => { x with active := false })
                 s.sessions }, [.terminateCall sid])
      | .Controller =>
        (s, [.terminateCall sid])

/-- One step of the server: dispatch an external event to its handler. -/
def step (cfg : Config) (s : St) : Ev → St × List Out
  | .connect r => connectStep s r
  | .msg sid f => msgStep cfg s sid f
  | .closeEvt sid => closeStep s sid
  | .errorEvt sid => errorStep s sid

/-- Run a sequence of events, concatenating the outputs. -/
def run (cfg : Config) (s : St) : List Ev → St × List Out
  | [] => (s, [])
  | e :: es =>
    let r1 := step cfg s e
    let r2 := run cfg r1.1 es
    (r2.1, r1.2 ++ r2.2)

/-- Startup routing (`server.ts` lines 115-131 and 492-496).
`missing_password lp rp` is the guard
`lp === "" || lp === undefined || rp === "" || rp === undefined`. -/
def missing_password (lp rp : Option String) : Bool :=
  lp = some "" || lp = none || rp = some "" || rp = none

/-- What the express app exposes after startup: whether the catch-all
`app.get('*', ...)` diagnostic page is installed, and which websocket
endpoints were registered by `run_app`. -/
structure AppRoutes where
  diagnosticCatchAll : Bool
  wsEndpoints : List String
deriving DecidableEq, Repr

/-- Startup: when either password is missing or empty, install the
diagnostic catch-all and set `can_run = false` so `run_app()` (which
registers the three websocket endpoints) never executes; otherwise
`run_app()` registers `/forwarder`, `/status` and `/`. -/
def setupRoutes (lp rp : Option String) : AppRoutes :=
  if missing_password lp rp then
    { diagnosticCatchAll := true, wsEndpoints := [] }
  else
    { diagnosticCatchAll := false,
      wsEndpoints := ["/forwarder", "/status", "/"] }

/-- A fixed configuration used for concrete executions. -/
def cfg0 : Config := { LOCAL_PASSWORD := "lp", REMOTE_PASSWORD := "rp" }

/-- A frame carrying the configured local password. -/
def local_pw_frame : Frame := ⟨"lp", []⟩

/-- A frame carrying the configured remote password. -/
def remote_pw_frame : Frame := ⟨"rp", []⟩

/-- An authenticated-phase frame whose batch holds one `RequestServerInfo`. -/
def rsi_frame : Frame := ⟨"x", [.requestServerInfo]⟩

/-- A frame carrying a wrong password. -/
def bad_frame : Frame := ⟨"wrong", []⟩

/-- Two Sharer transports connect, neither has authenticated yet. -/
def trace_two_sharers : List Ev := [.connect .Sharer, .connect .Sharer]

/-- Sharer authenticates, Status authenticates, a Controller is admitted,
then the Sharer transport closes. -/
def trace_sharer_close : List Ev :=
  [.connect .Sharer, .msg 0 local_pw_frame, .connect .Status,
   .msg 1 local_pw_frame, .connect .Controller, .closeEvt 0]

/-- Controller sends a wrong password, then the correct one. -/
def trace_ctrl_auth_retry : List Ev :=
  [.connect .Sharer, .msg 0 local_pw_frame, .connect .Controller,
   .msg 1 bad_frame, .msg 1 remote_pw_frame]

/-- Authenticated Controller sends the handshake marker twice. -/
def trace_double_rsi : List Ev :=
  [.connect .Sharer, .msg 0 local_pw_frame, .connect .Controller,
   .msg 1 remote_pw_frame, .msg 1 rsi_frame, .msg 1 rsi_frame]

/-- Status authenticates and then its transport closes; afterwards a
Controller is admitted (but not yet authenticated). -/
def trace_status_end : List Ev :=
  [.connect .Sharer, .msg 0 local_pw_frame, .connect .Status,
   .msg 1 local_pw_frame, .closeEvt 1, .connect .Controller]

/-- Sharer and Status authenticate, a Controller is admitted but never
sends anything. -/
def trace_unauth_ctrl : List Ev :=
  [.connect .Sharer, .msg 0 local_pw_frame, .connect .Status,
   .msg 1 local_pw_frame, .connect .Controller]

/-- The state after a single Sharer has connected and authenticated. -/
def sharer_active_st : St :=
  (run cfg0 init [.connect .Sharer, .msg 0 local_pw_frame]).1

/-- Looking up a key other than the updated one is unchanged. -/
theorem lookup_updSession_ne (sid j : Nat) (f : Session → Session)
    (l : List (Nat × Session)) (h : j ≠ sid) :
    (updSession sid f l).lookup j = l.lookup j := by
  induction l with
  | nil => rfl
  | cons p rest ih =>
    obtain ⟨i, x⟩ := p
    by_cases hi : i = sid
    · subst hi
      have hb : (j == i) = false := beq_eq_false_iff_ne.mpr h
      simp [updSession, List.lookup, hb]
    · by_cases hj : j = i
      · subst hj
        have hb : (j == j) = true := beq_self_eq_true j
        simp [updSession, hi, List.lookup, hb]
      · have hb : (j == i) = false := beq_eq_false_iff_ne.mpr hj
        simp [updSession, hi, List.lookup, hb, ih]

/-- Looking up the updated key yields the updated session. -/
theorem lookup_updSession_self (sid : Nat) (f : Session → Session)
    (l : List (Nat × Session)) (x : Session) (h : l.lookup sid = some x) :
    (updSession sid f l).lookup sid = some (f x) := by
  induction l with
  | nil => simp [List.lookup] at h
  | cons p rest ih =>
    obtain ⟨i, y⟩ := p
    by_cases hi : i = sid
    · subst hi
      have hb : (i == i) = true := beq_self_eq_true i
      simp [List.lookup, hb] at h
      simp [updSession, List.lookup, hb, h]
    · have hb : (sid == i) = false := beq_eq_false_iff_ne.mpr (Ne.symm hi)
      simp [List.lookup, hb] at h
      simp [updSession, hi, List.lookup, hb, ih h]

/-- Lookup skips a prefix in which the key does not occur. -/
theorem lookup_append_of_eq_none {l : List (Nat × Session)} {k : Nat}
    (h : l.lookup k = none) (m : List (Nat × Session)) :
    (l ++ m).lookup k = m.lookup k := by
  induction l with
  | nil => rfl
  | cons p rest ih =>
    obtain ⟨i, y⟩ := p
    by_cases hi : k = i
    · subst hi
      have hb : (k == k) = true := beq_self_eq_true k
      simp [List.lookup, hb] at h
    · have hb : (k == i) = false := beq_eq_false_iff_ne.mpr hi
      simp only [List.cons_append, List.lookup, hb] at h ⊢
      exact ih h

/-- The actions of `emitLocalDisconnect`: the publish marker plus one
`close()` call per registered `local_disconnect` listener, and nothing
else (in particular, no frame is sent to anyone). -/
theorem mem_emitOuts_local_disconnect (s : St) (x : Out) :
    x ∈ emitOuts s .local_disconnect ↔
      x = .publish .local_disconnect ∨
        ∃ j, x = .closeCall j ∧ HubListener.local_disconnect j ∈ s.hub := by
  simp only [emitOuts, List.mem_cons, List.mem_filterMap]
  constructor
  · rintro (rfl | ⟨l, hl, hx⟩)
    · exact Or.inl rfl
    · cases l with
      | local_disconnect j =>
        simp [listenerAction] at hx
        exact Or.inr ⟨j, hx.symm, hl⟩
      | remote_connect j => simp [listenerAction] at hx
      | remote_disconnect j => simp [listenerAction] at hx
  · rintro (rfl | ⟨j, rfl, hj⟩)
    · exact Or.inl rfl
    · exact Or.inr ⟨.local_disconnect j, hj, by simp [listenerAction]⟩

/-- A listener's action is never a publish marker. -/
theorem listenerAction_ne_publish (s : St) (k : EvKind) (l : HubListener)
    (x : Out) (h : listenerAction s k l = some x) (k2 : EvKind) :
    x ≠ Out.publish k2 := by
  cases k <;> cases l <;> simp [listenerAction] at h <;>
    first
      | (rw [← h]; simp)
      | (rcases h with ⟨h1, h2⟩; rw [← h2]; simp)

/-- Each emit contributes exactly one publish marker of its own kind. -/
theorem emitOuts_count_publish (s : St) (k : EvKind) :
    (emitOuts s k).count (Out.publish k) = 1 := by
  have hz : (s.hub.filterMap (listenerAction s k)).count (Out.publish k) = 0 := by
    rw [List.count_eq_zero]
    intro hmem
    rcases List.mem_filterMap.mp hmem with ⟨l, _, hl⟩
    exact listenerAction_ne_publish s k l _ hl k rfl
  rw [emitOuts, List.count_cons_self, hz]

/-- The Controller relay loop publishes `remote_connect` once per
`RequestServerInfo` occurrence in the batch. -/
theorem relayOuts_count_publish (s : St) (ms : List PMsg) :
    (relayOuts s ms).count (Out.publish .remote_connect) =
      ms.count .requestServerInfo := by
  induction ms with
  | nil => rfl
  | cons m rest ih =>
    cases m with
    | requestServerInfo =>
      simp [relayOuts, List.count_append, List.count_cons, ih,
        emitOuts_count_publish, Nat.add_comm]
    | other =>
      simp [relayOuts, List.count_cons, ih]

/-- C5: while the Sharer Slot (`forwarder_connected`) is empty, any
Controller or Status admission attempt is rejected: the handler closes the
transport at once and returns without installing any message handler, so no
handshake or credential check can ever happen on that transport — every
later message event on it is a no-op. -/
theorem C5_reject_without_sharer (cfg : Config) (s : St)
    (h : s.forwarder_connected = false)
    (hfresh : s.sessions.lookup s.nextSid = none) :
    step cfg s (.connect .Controller) =
      ({ s with nextSid := s.nextSid + 1 }, [.closeCall s.nextSid]) ∧
    step cfg s (.connect .Status) =
      ({ s with nextSid := s.nextSid + 1 }, [.closeCall s.nextSid]) ∧
    (∀ f, step cfg { s with nextSid := s.nextSid + 1 } (.msg s.nextSid f) =
      ({ s with nextSid := s.nextSid + 1 }, [])) := by
  refine ⟨?_, ?_, ?_⟩
  · simp [step, connectStep, h]
  · simp [step, connectStep, h]
  · intro f
    simp [step, msgStep, hfresh]

/-- C5 witness: in the initial state (no Sharer), both admissions are
rejected with an immediate close and the rejected transport's messages are
ignored. -/
theorem C5_reject_without_sharer_witness :
    step cfg0 init (.connect .Controller) =
      ({ init with nextSid := init.nextSid + 1 }, [.closeCall init.nextSid]) ∧
    step cfg0 init (.connect .Status) =
      ({ init with nextSid := init.nextSid + 1 }, [.closeCall init.nextSid]) ∧
    (∀ f, step cfg0 { init with nextSid := init.nextSid + 1 }
        (.msg init.nextSid f) =
      ({ init with nextSid := init.nextSid + 1 }, [])) :=
  C5_reject_without_sharer cfg0 init (by decide) (by decide)

/-- C8: with either secret missing or empty at startup, the diagnostic
catch-all GET handler is installed and none of the three websocket
endpoints is registered; with both non-empty, the three endpoints are
registered and no catch-all is installed. -/
theorem C8_startup_gating (lp rp : Option String) :
    (missing_password lp rp = true ↔
      lp = some "" ∨ lp = none ∨ rp = some "" ∨ rp = none) ∧
    (missing_password lp rp = true →
      setupRoutes lp rp = ⟨true, []⟩) ∧
    (missing_password lp rp = false →
      setupRoutes lp rp = ⟨false, ["/forwarder", "/status", "/"]⟩) := by
  refine ⟨?_, ?_, ?_⟩
  · simp [missing_password, or_assoc]
  · intro h
    simp [setupRoutes, h]
  · intro h
    simp [setupRoutes, h]

/-- C8 witness: a missing local password serves only the diagnostic page;
two non-empty passwords register all three endpoints. -/
theorem C8_startup_gating_witness :
    setupRoutes none (some "rp") = ⟨true, []⟩ ∧
    setupRoutes (some "lp") (some "rp") =
      ⟨false, ["/forwarder", "/status", "/"]⟩ :=
  ⟨(C8_startup_gating none (some "rp")).2.1 (by decide),
   (C8_startup_gating (some "lp") (some "rp")).2.2 (by decide)⟩

/-- C1 counterexample: two Sharer transports connect in a row, the first
not yet authenticated.  The occupancy check (`if (forwarder_connected)`)
passes for both — no close is issued and both connections get live
handlers.  The second Sharer is NOT rejected, refuting atomicity of
check-and-mark for the Sharer Slot. -/
theorem C1_counterexample :
    (run cfg0 init trace_two_sharers).2 = [] ∧
    (run cfg0 init trace_two_sharers).1.sessions =
      [(0, ⟨.Sharer, false, true⟩), (1, ⟨.Sharer, false, true⟩)] ∧
    (run cfg0 init trace_two_sharers).1.forwarder_connected = false := by
  decide

/-- C1 amended: the Sharer Slot is marked occupied only at authentication,
not atomically with the admission check, so between a Sharer's admission
and its authentication a second Sharer connection is also accepted.  Once
some Sharer has authenticated (`forwarder_connected` set), every further
Sharer connection attempt is rejected and its transport closed. -/
theorem C1_amended (cfg : Config) (s : St)
    (h : s.forwarder_connected = true) :
    step cfg s (.connect .Sharer) =
      ({ s with nextSid := s.nextSid + 1 }, [.closeCall s.nextSid]) := by
  simp [step, connectStep, h]

/-- C1 amended witness: with an authenticated Sharer present, a second
Sharer connection is rejected with an immediate close. -/
theorem C1_amended_witness :
    sharer_active_st.forwarder_connected = true ∧
    step cfg0 sharer_active_st (.connect .Sharer) =
      ({ sharer_active_st with nextSid := sharer_active_st.nextSid + 1 },
       [.closeCall sharer_active_st.nextSid]) :=
  ⟨by decide, C1_amended cfg0 sharer_active_st (by decide)⟩

/-- C3 counterexample: Sharer authenticates, Status authenticates, a
Controller is admitted, then the Sharer transport closes.  In the resulting
reachable state the Sharer Slot is empty while BOTH the Status and the
Controller Slots are still occupied — the role-ordering invariant is not
preserved by the Sharer's disconnection step. -/
theorem C3_counterexample :
    (run cfg0 init trace_sharer_close).1.forwarder_connected = false ∧
    (run cfg0 init trace_sharer_close).1.status_connected = true ∧
    (run cfg0 init trace_sharer_close).1.remote_connected = true := by
  decide

/-- C3 amended: the role ordering holds at admission time — a Status or
Controller session is admitted (a handler installed) only while the Sharer
Slot is occupied — but it is not an invariant of all reachable states:
once admitted, the Status and Controller Slots can remain occupied after
the Sharer Slot empties. -/
theorem C3_amended (s : St) :
    ((connectStep s .Status).1.sessions.length ≠ s.sessions.length →
      s.forwarder_connected = true) ∧
    ((connectStep s .Controller).1.sessions.length ≠ s.sessions.length →
      s.forwarder_connected = true) := by
  constructor
  · intro h
    cases hb : s.forwarder_connected
    · simp [connectStep, hb] at h
    · rfl
  · intro h
    cases hb : s.forwarder_connected
    · simp [connectStep, hb] at h
    · rfl

/-- C3 amended witness: with an authenticated Sharer present, admitting a
Status session does add a session, and the theorem recovers that the
Sharer Slot was occupied. -/
theorem C3_amended_witness : sharer_active_st.forwarder_connected = true :=
  (C3_amended sharer_active_st).1 (by decide)

/-- C9: `emitRemoteDisconnect` runs on every Controller close event
(server.ts line 436), with no check that the Controller ever authenticated
or sent a handshake.  Generally, closing any live Controller session
publishes `remote_disconnect`; concretely, the trace in which Sharer and
Status authenticate and a Controller connects and closes without ever
sending a message delivers a disconnect status frame to the Status
transport with no connect frame ever sent. -/
theorem C9_disconnect_without_connect
    (s : St) (sid : Nat) (p : Bool)
    (h : s.sessions.lookup sid = some ⟨.Controller, p, true⟩) :
    Out.publish .remote_disconnect ∈ (closeStep s sid).2 ∧
    (Out.send 1 disconnect_frame ∈
        (run cfg0 init (trace_unauth_ctrl ++ [.closeEvt 2])).2 ∧
      Out.send 1 connect_frame ∉
        (run cfg0 init (trace_unauth_ctrl ++ [.closeEvt 2])).2 ∧
      (run cfg0 init (trace_unauth_ctrl ++ [.closeEvt 2])).1.sessions.lookup 2 =
        some ⟨.Controller, false, false⟩) := by
  constructor
  · simp [closeStep, h, emitOuts]
  · refine ⟨by decide, by decide, by decide⟩

/-- C9 witness: applying the general part at the concrete reachable state
with a never-authenticated Controller session. -/
theorem C9_disconnect_without_connect_witness :
    Out.publish .remote_disconnect ∈
      (closeStep (run cfg0 init trace_unauth_ctrl).1 2).2 :=
  (C9_disconnect_without_connect (run cfg0 init trace_unauth_ctrl).1 2 false
    (by decide)).1

/-- C6 counterexample: one authenticated Controller session sends the
handshake marker (`RequestServerInfo`) in two successive batches;
`remote_connect` is published twice in that session's lifetime, refuting
"exactly once ... subsequent handshake-marker messages do not re-fire". -/
theorem C6_counterexample :
    (run cfg0 init trace_double_rsi).2.count (Out.publish .remote_connect) = 2 ∧
    (run cfg0 init trace_double_rsi).1.sessions.lookup 1 =
      some ⟨.Controller, true, true⟩ := by
  decide

/-- C6 amended: for an authenticated Controller session, each inbound batch
publishes `remote_connect` once per occurrence of the handshake marker in
that batch — it re-fires on every occurrence rather than at most once per
session. -/
theorem C6_amended (cfg : Config) (s : St) (sid : Nat) (f : Frame)
    (h : s.sessions.lookup sid = some ⟨.Controller, true, true⟩) :
    (msgStep cfg s sid f).2.count (Out.publish .remote_connect) =
      f.msgs.count .requestServerInfo := by
  simp [msgStep, h, relayOuts_count_publish]

/-- C6 amended witness: the authenticated Controller of the concrete trace
receives a two-marker batch and publishes `remote_connect` twice. -/
theorem C6_amended_witness :
    (msgStep cfg0 (run cfg0 init (trace_double_rsi.take 4)).1 1
        ⟨"x", [.requestServerInfo, .requestServerInfo]⟩).2.count
      (Out.publish .remote_connect) =
      [PMsg.requestServerInfo, PMsg.requestServerInfo].count
        PMsg.requestServerInfo :=
  C6_amended cfg0 (run cfg0 init (trace_double_rsi.take 4)).1 1
    ⟨"x", [.requestServerInfo, .requestServerInfo]⟩ (by decide)

/-- C7 counterexample: after the Status session authenticates and then its
transport closes, its two hub listeners are still registered on the
`status_emitter`; and a freshly admitted, not-yet-authenticated Controller
already has its `local_disconnect` hub listener registered.  Both halves of
"subscriptions exist only between successful authentication and session
end" fail. -/
theorem C7_counterexample :
    (run cfg0 init trace_status_end).1.hub =
      [.remote_connect 1, .remote_disconnect 1, .local_disconnect 2] ∧
    (run cfg0 init trace_status_end).1.sessions.lookup 1 =
      some ⟨.Status, true, false⟩ ∧
    (run cfg0 init trace_status_end).1.sessions.lookup 2 =
      some ⟨.Controller, false, true⟩ := by
  decide

/-- C7 amended: the Status session registers its `remote_connect` and
`remote_disconnect` hub listeners at successful authentication, but the
Controller registers its `local_disconnect` hub listener already at
admission, before authenticating; and no close event ever removes a hub
listener (session end removes only transport-level listeners), so hub
subscriptions outlive their owning session. -/
theorem C7_amended (cfg : Config) (s : St) :
    (s.forwarder_connected = true → s.remote_connected = false →
      (connectStep s .Controller).1.hub =
          s.hub ++ [.local_disconnect s.nextSid] ∧
      (s.sessions.lookup s.nextSid = none →
        (connectStep s .Controller).1.sessions.lookup s.nextSid =
          some ⟨.Controller, false, true⟩)) ∧
    (∀ sid, s.sessions.lookup sid = some ⟨.Status, false, true⟩ →
      (msgStep cfg s sid ⟨cfg.LOCAL_PASSWORD, []⟩).1.hub =
        s.hub ++ [.remote_connect sid, .remote_disconnect sid]) ∧
    (∀ sid, (closeStep s sid).1.hub = s.hub) := by
  refine ⟨?_, ?_, ?_⟩
  · intro hf hr
    constructor
    · simp [connectStep, hf, hr]
    · intro hn
      simp [connectStep, hf, hr, lookup_append_of_eq_none hn, List.lookup]
  · intro sid h
    simp [msgStep, h]
  · intro sid
    rcases hl : s.sessions.lookup sid with _ | sess
    · simp [closeStep, hl]
    · rcases sess with ⟨r, p, a⟩
      cases a
      · simp [closeStep, hl]
      · cases r <;> simp [closeStep, hl]

/-- C7 amended witness: the pre-authentication Controller listener, the
at-authentication Status listeners, and the no-removal-on-close behaviour,
each at a concrete reachable state. -/
theorem C7_amended_witness :
    (connectStep sharer_active_st .Controller).1.hub =
      sharer_active_st.hub ++ [.local_disconnect sharer_active_st.nextSid] ∧
    (msgStep cfg0 (run cfg0 init (trace_status_end.take 3)).1 1
        ⟨cfg0.LOCAL_PASSWORD, []⟩).1.hub =
      (run cfg0 init (trace_status_end.take 3)).1.hub ++
        [.remote_connect 1, .remote_disconnect 1] ∧
    (closeStep (run cfg0 init (trace_status_end.take 4)).1 1).1.hub =
      (run cfg0 init (trace_status_end.take 4)).1.hub :=
  ⟨((C7_amended cfg0 sharer_active_st).1 (by decide) (by decide)).1,
   (C7_amended cfg0 (run cfg0 init (trace_status_end.take 3)).1).2.1 1
     (by decide),
   (C7_amended cfg0 (run cfg0 init (trace_status_end.take 4)).1).2.2 1⟩

/-- C2 counterexample: Sharer, Status and Controller are all attached
(trace_sharer_close ends with the Sharer transport closing).  Afterwards
the Status Slot is still occupied, the Status transport was never closed
(no `closeCall 1` was ever issued) and its session is still live; and when
the Controller's close event later arrives, a further
`{"type":"disconnect"}` status frame IS sent to the Status transport.
This refutes release-of-Status, closing of the Status transport, and
"no further Status frames". -/
theorem C2_counterexample :
    (run cfg0 init trace_sharer_close).1.forwarder_connected = false ∧
    (run cfg0 init trace_sharer_close).1.status_connected = true ∧
    Out.closeCall 1 ∉ (run cfg0 init trace_sharer_close).2 ∧
    (run cfg0 init trace_sharer_close).1.sessions.lookup 1 =
      some ⟨.Status, true, true⟩ ∧
    Out.send 1 disconnect_frame ∈
      (step cfg0 (run cfg0 init trace_sharer_close).1 (.closeEvt 2)).2 := by
  decide

/-- C2 amended: when the Sharer session ends, the Sharer Slot is released
immediately and `local_disconnect` is published, whose only effect is a
`close()` call on each Controller transport holding a hub listener; no
frame is sent to anybody in that step, the Status and Controller Slots are
NOT released (the Controller Slot empties only when its own close event
later fires), and every other session — in particular the Status session
and its transport — is untouched. -/
theorem C2_amended (cfg : Config) (s : St) (sid : Nat) (p : Bool)
    (h : s.sessions.lookup sid = some ⟨.Sharer, p, true⟩) :
    (step cfg s (.closeEvt sid)).1.forwarder_connected = false ∧
    (step cfg s (.closeEvt sid)).1.status_connected = s.status_connected ∧
    (step cfg s (.closeEvt sid)).1.remote_connected = s.remote_connected ∧
    (∀ j, j ≠ sid →
      (step cfg s (.closeEvt sid)).1.sessions.lookup j =
        s.sessions.lookup j) ∧
    (∀ j str, Out.send j str ∉ (step cfg s (.closeEvt sid)).2) ∧
    (∀ j, Out.closeCall j ∈ (step cfg s (.closeEvt sid)).2 ↔
      HubListener.local_disconnect j ∈ s.hub) := by
  refine ⟨?_, ?_, ?_, ?_, ?_, ?_⟩
  · simp [step, closeStep, h]
  · simp [step, closeStep, h]
  · simp [step, closeStep, h]
  · intro j hj
    simp [step, closeStep, h, lookup_updSession_ne sid j _ _ hj]
  · intro j str hmem
    simp [step, closeStep, h] at hmem
    rcases (mem_emitOuts_local_disconnect _ _).mp hmem with h1 | ⟨j2, h2, _⟩
    · exact Out.noConfusion h1
    · exact Out.noConfusion h2
  · intro j
    constructor
    · intro hmem
      simp [step, closeStep, h] at hmem
      rcases (mem_emitOuts_local_disconnect _ _).mp hmem with h1 | ⟨j2, h2, hj2⟩
      · exact Out.noConfusion h1
      · cases h2
        exact hj2
    · intro hh
      simp [step, closeStep, h]
      exact (mem_emitOuts_local_disconnect _ _).mpr (Or.inr ⟨j, rfl, hh⟩)

/-- C2 amended witness: closing the Sharer of the fully attached concrete
state empties the Sharer Slot, leaves the Status Slot as it was, and
closes exactly the Controller transport registered on the hub. -/
theorem C2_amended_witness :
    (step cfg0 (run cfg0 init trace_unauth_ctrl).1 (.closeEvt 0)).1.forwarder_connected = false ∧
    (step cfg0 (run cfg0 init trace_unauth_ctrl).1 (.closeEvt 0)).1.status_connected =
      (run cfg0 init trace_unauth_ctrl).1.status_connected ∧
    (Out.closeCall 2 ∈ (step cfg0 (run cfg0 init trace_unauth_ctrl).1 (.closeEvt 0)).2 ↔
      HubListener.local_disconnect 2 ∈ (run cfg0 init trace_unauth_ctrl).1.hub) :=
  ⟨(C2_amended cfg0 (run cfg0 init trace_unauth_ctrl).1 0 true (by decide)).1,
   (C2_amended cfg0 (run cfg0 init trace_unauth_ctrl).1 0 true (by decide)).2.1,
   (C2_amended cfg0 (run cfg0 init trace_unauth_ctrl).1 0 true (by decide)).2.2.2.2.2 2⟩

/-- C4 counterexample: an admitted Controller sends a wrong first message,
then the correct secret.  After the wrong message the Controller Slot is
still occupied (it was marked at admission) and the listeners are still
attached, so the later correct message authenticates: an "ok" frame is
sent and the session ends up authenticated — refuting "the Slot is never
marked occupied" and "no later message on the same transport can
authenticate" for the Controller role. -/
theorem C4_counterexample :
    (run cfg0 init trace_ctrl_auth_retry).1.remote_connected = true ∧
    Out.closeCall 1 ∈ (run cfg0 init trace_ctrl_auth_retry).2 ∧
    Out.send 1 "ok" ∈ (run cfg0 init trace_ctrl_auth_retry).2 ∧
    (run cfg0 init trace_ctrl_auth_retry).1.sessions.lookup 1 =
      some ⟨.Controller, true, true⟩ := by
  decide

/-- C4 amended: for the Sharer and Status roles the claim holds — a wrong
first message closes the transport, removes its listeners, sends no "ok",
leaves every Slot flag as it was, and no later message on the transport is
processed at all.  For the Controller role a wrong first message closes
the transport and sends no "ok", but the Slot was already marked occupied
at admission and stays marked, the message listener stays attached, and a
later message carrying the correct secret still authenticates. -/
theorem C4_amended (cfg : Config) (s : St) (sid : Nat) (f : Frame) :
    (∀ r, (r = Role.Sharer ∨ r = Role.Status) →
      s.sessions.lookup sid = some ⟨r, false, true⟩ →
      f.text ≠ cfg.LOCAL_PASSWORD →
      msgStep cfg s sid f =
        ({ s with
            sessions := updSession sid (fun x => { x with active := false })
              s.sessions },
         [.closeCall sid]) ∧
      (∀ g, msgStep cfg
          { s with
              sessions := updSession sid (fun x => { x with active := false })
                s.sessions }
          sid g =
        ({ s with
            sessions := updSession sid (fun x => { x with active := false })
              s.sessions },
         []))) ∧
    (s.sessions.lookup sid = some ⟨.Controller, false, true⟩ →
      f.text ≠ cfg.REMOTE_PASSWORD →
      msgStep cfg s sid f = (s, [.closeCall sid]) ∧
      msgStep cfg s sid ⟨cfg.REMOTE_PASSWORD, []⟩ =
        ({ s with
            sessions := updSession sid (fun x => { x with password_sent := true })
              s.sessions },
         [.send sid "ok"])) := by
  constructor
  · rintro r (rfl | rfl) h hw
    · refine ⟨by simp [msgStep, h, hw], ?_⟩
      intro g
      have hl := lookup_updSession_self sid
        (fun x => { x with active := false }) s.sessions _ h
      simp [msgStep, hl]
    · refine ⟨by simp [msgStep, h, hw], ?_⟩
      intro g
      have hl := lookup_updSession_self sid
        (fun x => { x with active := false }) s.sessions _ h
      simp [msgStep, hl]
  · intro h hw
    exact ⟨by simp [msgStep, h, hw], by simp [msgStep, h]⟩

/-- C4 amended witness: a wrong first message on a fresh Sharer transport
closes it, and on an admitted Controller transport merely requests a
close while leaving the whole state unchanged. -/
theorem C4_amended_witness :
    msgStep cfg0 (run cfg0 init [.connect .Sharer]).1 0 bad_frame =
      ({ (run cfg0 init [.connect .Sharer]).1 with
          sessions := updSession 0 (fun x => { x with active := false })
            (run cfg0 init [.connect .Sharer]).1.sessions },
       [.closeCall 0]) ∧
    msgStep cfg0 (run cfg0 init (trace_ctrl_auth_retry.take 3)).1 1
        bad_frame =
      ((run cfg0 init (trace_ctrl_auth_retry.take 3)).1, [.closeCall 1]) :=
  ⟨((C4_amended cfg0 (run cfg0 init [.connect .Sharer]).1 0 bad_frame).1
      .Sharer (Or.inl rfl) (by decide) (by decide)).1,
   ((C4_amended cfg0 (run cfg0 init (trace_ctrl_auth_retry.take 3)).1 1
      bad_frame).2 (by decide) (by decide)).1⟩

/-- C10: slot-marking time differs by role.  The Controller Slot is marked
occupied at admission (`remote_connected = true` at the end of
`InitServer`), before the Controller authenticates, so a second Controller
attempt is immediately rejected while an unauthenticated Controller holds
the connection.  The Sharer and Status Slots are marked only at successful
authentication, so the admission check does not exclude an
admitted-but-unauthenticated session of the same role: a second pre-auth
Sharer or Status connection is also accepted. -/
theorem C10_slot_marking (cfg : Config) (s : St)
    (hfresh : s.sessions.lookup s.nextSid = none) :
    (s.forwarder_connected = true → s.remote_connected = false →
      (connectStep s .Controller).1.remote_connected = true ∧
      (connectStep s .Controller).1.sessions.lookup s.nextSid =
        some ⟨.Controller, false, true⟩ ∧
      connectStep (connectStep s .Controller).1 .Controller =
        ({ (connectStep s .Controller).1 with
             nextSid := (connectStep s .Controller).1.nextSid + 1 },
         [.closeCall (connectStep s .Controller).1.nextSid])) ∧
    (s.forwarder_connected = false →
      (connectStep s .Sharer).1.forwarder_connected = false ∧
      (connectStep s .Sharer).1.sessions.lookup s.nextSid =
        some ⟨.Sharer, false, true⟩ ∧
      (connectStep (connectStep s .Sharer).1 .Sharer).2 = [] ∧
      (msgStep cfg (connectStep s .Sharer).1 s.nextSid
          ⟨cfg.LOCAL_PASSWORD, []⟩).1.forwarder_connected = true) ∧
    (s.forwarder_connected = true → s.status_connected = false →
      (connectStep s .Status).1.status_connected = false ∧
      (connectStep s .Status).1.sessions.lookup s.nextSid =
        some ⟨.Status, false, true⟩ ∧
      (connectStep (connectStep s .Status).1 .Status).2 = [] ∧
      (msgStep cfg (connectStep s .Status).1 s.nextSid
          ⟨cfg.LOCAL_PASSWORD, []⟩).1.status_connected = true) := by
  refine ⟨?_, ?_, ?_⟩
  · intro hf hr
    have hadd : (s.sessions ++
        [(s.nextSid, (⟨.Controller, false, true⟩ : Session))]).lookup
          s.nextSid = some ⟨.Controller, false, true⟩ := by
      rw [lookup_append_of_eq_none hfresh]
      simp [List.lookup]
    refine ⟨by simp [connectStep, hf, hr], ?_, ?_⟩
    · simp [connectStep, hf, hr, hadd]
    · simp [connectStep, hf, hr]
  · intro hf
    have hadd : (s.sessions ++
        [(s.nextSid, (⟨.Sharer, false, true⟩ : Session))]).lookup
          s.nextSid = some ⟨.Sharer, false, true⟩ := by
      rw [lookup_append_of_eq_none hfresh]
      simp [List.lookup]
    refine ⟨by simp [connectStep, hf], ?_, ?_, ?_⟩
    · simp [connectStep, hf, hadd]
    · simp [connectStep, hf]
    · simp [connectStep, hf, msgStep, hadd]
  · intro hf hs
    have hadd : (s.sessions ++
        [(s.nextSid, (⟨.Status, false, true⟩ : Session))]).lookup
          s.nextSid = some ⟨.Status, false, true⟩ := by
      rw [lookup_append_of_eq_none hfresh]
      simp [List.lookup]
    refine ⟨by simp [connectStep, hf, hs], ?_, ?_, ?_⟩
    · simp [connectStep, hf, hs, hadd]
    · simp [connectStep, hf, hs]
    · simp [connectStep, hf, hs, msgStep, hadd]

/-- C10 witness: at the concrete reachable states — an authenticated
Sharer for the Controller/Status parts, the initial state for the Sharer
part — the slot-marking facts instantiate. -/
theorem C10_slot_marking_witness :
    (connectStep sharer_active_st .Controller).1.remote_connected = true ∧
    (connectStep init .Sharer).1.forwarder_connected = false ∧
    (connectStep sharer_active_st .Status).1.status_connected = false :=
  ⟨((C10_slot_marking cfg0 sharer_active_st (by decide)).1 (by decide)
      (by decide)).1,
   ((C10_slot_marking cfg0 init (by decide)).2.1 (by decide)).1,
   ((C10_slot_marking cfg0 sharer_active_st (by decide)).2.2 (by decide)
      (by decide)).1⟩

end Teledildonics
